import Mathlib

/-!
# Verification of the finance-tracker client cache layer

Shallow embedding of the cache / selection / edit-session machinery of the
finance-tracker client (limits store, transactions page, auto-refresh
composable), with theorems settling the spec's claims about it.

Source files embedded here:
* `src/finance-tracker/src/pages/Transactions.vue` (the page script and
  the two Pinia stores bundled in that file: the layout store and the
  limits store `useLimitsStore`),
* `src/finance-tracker/src/composables/UI/useAutoRefresh.ts`.

Asynchronous store actions are embedded as explicit state-transition
functions.  An `await`ed remote call is passed in as its resolved outcome
(`Except String α`: `.ok` for a fulfilled promise, `.error` for a
rejection), so a single call is a function of the pre-state and of the
outcomes of the remote calls it performs.  Where concurrency matters
(the busy-flag guard) a call is split at its suspension point into a
synchronous prefix (`loadLimitsBegin`) and a continuation
(`loadLimitsEnd`), mirroring the single-threaded cooperative execution
model: code between `await` points runs atomically.
-/

namespace FinanceTracker

/-! ## Filters and their JSON serialization

`GetLimitsParams` (and the other filter types) are plain key/value
objects; `loadLimits` compares the recorded and the requested filter with
`JSON.stringify(currentFilter.value) !== JSON.stringify(params)`.

A filter object is embedded as an association list of string fields in
JavaScript-object insertion order (`JSON.stringify` serializes own
enumerable properties in that order).  A parameter that is `undefined`
altogether is `Option.none`; `JSON.stringify(undefined)` is the
(non-string) value `undefined`, embedded as `Option.none : Option String`
on the serialization side. -/

/-- A filter value object: named string fields in object insertion order. -/
abbrev Filter : Type := List (String × String)

/-- `JSON.stringify` of a filter object: fields in insertion order. -/
def serializeFilter (f : Filter) : String :=
  "\x7b" ++ String.intercalate ","
    (f.map (fun kv => "\"" ++ kv.1 ++ "\":\"" ++ kv.2 ++ "\"")) ++ "\x7d"

/-- `JSON.stringify` applied to the possibly-`undefined` filter argument:
`JSON.stringify(undefined)` is `undefined`, not a string. -/
def serializeOptFilter : Option Filter → Option String
  | none => none
  | some f => some (serializeFilter f)

/-- The field-lookup used to state structural (order-independent) equality. -/
def lookupField (f : Filter) (k : String) : Option String :=
  (f.find? (fun kv => kv.1 == k)).map (fun kv => kv.2)

/-- Modelled from the spec (the spec's definition of filter equality, stated
for the refinement claim about the cache-reuse gate): deep field-by-field
structural equality of two filter objects, independent of field ordering;
absent fields are canonical (a field is compared through `lookupField`, so
an absent field on both sides is equal). -/
def structEqFilter (f1 f2 : Filter) : Bool :=
  f1.all (fun kv => lookupField f2 kv.1 == some kv.2) &&
  f2.all (fun kv => lookupField f1 kv.1 == some kv.2)

/-- Modelled from the spec, lifted to the possibly-absent filter argument:
two absent filters are structurally equal; an absent filter differs from a
present one. -/
def structEqOptFilter : Option Filter → Option Filter → Bool
  | none, none => true
  | some f1, some f2 => structEqFilter f1 f2
  | _, _ => false

/-! ## The limits store (`useLimitsStore` in Transactions.vue)

State refs of the store that the claims are about: `limits`, `loading`,
`isLoaded`, `currentFilter`.  (`drawerVisible` / `editingLimit` belong to
the edit-session part and are carried too, since `handleSubmit` and
`editLimit` read and write them.) -/

/-- The `Limit` entity (from `@/composables/Limits/types`, not under the
visible sources; fields per the spec's data model: identifier, category
reference, amount ceiling, period bounds, creation timestamp). Only `id`
and `created_at` are inspected by the embedded store code. -/
structure LimitT where
  id : String
  category_id : String
  amount : String
  period_start : String
  period_end : String
  created_at : String
deriving Repr, DecidableEq

/-- Payload of a limit-create request (`LimitCreateData`). -/
structure LimitCreateData where
  category_id : String
  amount : String
  period_start : String
  period_end : String
deriving Repr, DecidableEq

/-- Payload of a limit-update request (`LimitUpdateData`). -/
structure LimitUpdateData where
  amount : String
  period_start : String
  period_end : String
deriving Repr, DecidableEq

namespace LimitsStore

/-- The mutable refs of the limits store. -/
structure LimitsState where
  limits : List LimitT
  loading : Bool
  isLoaded : Bool
  currentFilter : Option Filter
deriving Repr, DecidableEq

/-- The store's initial state: `limits = []`, `loading = false`,
`isLoaded = false`, `currentFilter = undefined`. -/
def initLimitsState : LimitsState :=
  { limits := [], loading := false, isLoaded := false, currentFilter := none }

/-- Resolved outcomes of the remote calls a limits-store action performs
(`useLimitsRequests()`), passed in explicitly: `fetchLimits` is the
outcome of `getLimits(params)` as a function of the params it is called
with; the three mutation requests are their outcomes for the one argument
the action passes. -/
structure LimitsEnv where
  fetchLimits : Option Filter → Except String (List LimitT)
  addLimitRequest : Except String Unit
  updateLimitRequest : Except String Unit
  removeLimitRequest : Except String Unit

/-- Synchronous prefix of `loadLimits(params, force)`: everything up to and
including issuing the fetch.  Returns the state after this prefix and
whether a network fetch was issued.

Source:
```
const filterChanged = JSON.stringify(currentFilter.value) !== JSON.stringify(params);
if (!force && isLoaded.value && !filterChanged) { return; }
if (loading.value) return;
try {
  loading.value = true;
  currentFilter.value = params;
  limits.value = await fetchLimits(params);   -- prefix ends at this await
  ...
```
-/
def loadLimitsBegin (s : LimitsState) (params : Option Filter) (force : Bool) :
    LimitsState × Bool :=
  let filterChanged : Bool :=
    !(serializeOptFilter s.currentFilter == serializeOptFilter params)
  if !force && s.isLoaded && !filterChanged then
    (s, false)
  else if s.loading then
    (s, false)
  else
    ({ s with loading := true, currentFilter := params }, true)

/-- Continuation of `loadLimits` after the fetch resolves: on success the
contents are replaced and `isLoaded` set; on failure the error is logged
(`console.error`) and swallowed; `finally` clears `loading` on both paths. -/
def loadLimitsEnd (s : LimitsState) (fetchResult : Except String (List LimitT)) :
    LimitsState :=
  match fetchResult with
  | .ok items => { s with limits := items, isLoaded := true, loading := false }
  | .error _ => { s with loading := false }

/-- The whole of `loadLimits(params, force)` run to completion without
interleaving.  Result: the post-state, the number of network fetches the
call issued, and what the caller's `await` observes (`.ok ()` — the
`catch` block does not rethrow, so the promise always fulfills). -/
def loadLimits (env : LimitsEnv) (s : LimitsState) (params : Option Filter)
    (force : Bool) : LimitsState × Nat × Except String Unit :=
  let (s1, fetched) := loadLimitsBegin s params force
  if fetched then
    (loadLimitsEnd s1 (env.fetchLimits params), 1, .ok ())
  else
    (s1, 0, .ok ())

/-- `refreshLimits()`: `loadLimits(currentFilter.value, true)`. -/
def refreshLimits (env : LimitsEnv) (s : LimitsState) :
    LimitsState × Nat × Except String Unit :=
  loadLimits env s s.currentFilter true

/-- `addLimit(limitData)`: fires the create request, then on success
replaces the contents with a fresh fetch for the recorded filter; the
`catch` rethrows (`throw error`); `finally` clears `loading`.  Result:
the post-state and what the caller's `await` observes. -/
def addLimit (env : LimitsEnv) (s : LimitsState) :
    LimitsState × Except String Unit :=
  match env.addLimitRequest with
  | .error e => ({ s with loading := false }, .error e)
  | .ok _ =>
    match env.fetchLimits s.currentFilter with
    | .error e => ({ s with loading := false }, .error e)
    | .ok items => ({ s with limits := items, loading := false }, .ok ())

/-- `updateLimit(id, limitData)`: same shape as `addLimit`. -/
def updateLimit (env : LimitsEnv) (s : LimitsState) :
    LimitsState × Except String Unit :=
  match env.updateLimitRequest with
  | .error e => ({ s with loading := false }, .error e)
  | .ok _ =>
    match env.fetchLimits s.currentFilter with
    | .error e => ({ s with loading := false }, .error e)
    | .ok items => ({ s with limits := items, loading := false }, .ok ())

/-- `removeLimit(id)`: same shape as `addLimit`. -/
def removeLimit (env : LimitsEnv) (s : LimitsState) :
    LimitsState × Except String Unit :=
  match env.removeLimitRequest with
  | .error e => ({ s with loading := false }, .error e)
  | .ok _ =>
    match env.fetchLimits s.currentFilter with
    | .error e => ({ s with loading := false }, .error e)
    | .ok items => ({ s with limits := items, loading := false }, .ok ())

/-- Interleaving of two `loadLimits` calls where the second is issued
before the first's fetch resolves: prefix of call 1, prefix of call 2,
then call 1's continuation (only if call 1 actually fetched).  Returns
the final state and the total number of fetches issued by both calls. -/
def twoConcurrentLoads (env : LimitsEnv) (s : LimitsState)
    (p1 : Option Filter) (force1 : Bool) (p2 : Option Filter) (force2 : Bool) :
    LimitsState × Nat :=
  let (s1, b1) := loadLimitsBegin s p1 force1
  let (s2, b2) := loadLimitsBegin s1 p2 force2
  let s3 := if b1 then loadLimitsEnd s2 (env.fetchLimits p1) else s2
  (s3, (if b1 then 1 else 0) + (if b2 then 1 else 0))

/-! ### Limit period computation (`convertFormDataToCreateData` / `...UpdateData`)

The converters build the payload's `period_start` / `period_end` from
`new Date(year, month, 1)` and `new Date(year, month + 1, 0)` — local
calendar dates — and serialize each with `toISOString().split('T')[0]`.
`Date.prototype.toISOString` formats the instant's **UTC** date, so the
serialized calendar date depends on the environment's timezone offset.
The date arithmetic is embedded exactly for the real range of offsets
(strictly between −24 h and +24 h): a local-midnight instant falls, in
UTC, on the same calendar date when `getTimezoneOffset() ≥ 0` (at or west
of Greenwich: UTC clock = local clock + offset) and on the previous
calendar date when `getTimezoneOffset() < 0` (east of Greenwich). -/

/-- Gregorian leap year (JS `Date` semantics). -/
def isLeapYear (y : Int) : Bool :=
  y % 4 == 0 && (y % 100 != 0 || y % 400 == 0)

/-- Days in month `m` (0-based, JS convention) of year `y`; `new
Date(y, m + 1, 0)` denotes the last day of month `m`, which has this
day-of-month number. -/
def daysInMonth (y : Int) (m : Nat) : Nat :=
  match m with
  | 1 => if isLeapYear y then 29 else 28
  | 3 => 30
  | 5 => 30
  | 8 => 30
  | 10 => 30
  | _ => 31

/-- The calendar date one day before `(y, m, d)` (month 0-based). -/
def prevCalendarDay (y : Int) (m : Nat) (d : Nat) : Int × Nat × Nat :=
  if 1 < d then (y, m, d - 1)
  else if 0 < m then (y, m - 1, daysInMonth y (m - 1))
  else (y - 1, 11, 31)

/-- The UTC calendar date of the instant `new Date(y, m, d)` (local
midnight) in an environment whose `getTimezoneOffset()` is `tzOffset`
minutes (JS convention: UTC = local + offset; real offsets lie strictly
between −1440 and 1440). -/
def jsLocalMidnightToUTCDate (y : Int) (m : Nat) (d : Nat) (tzOffset : Int) :
    Int × Nat × Nat :=
  if 0 ≤ tzOffset then (y, m, d) else prevCalendarDay y m d

/-- Zero-pad a day or month number to two digits. -/
def pad2 (n : Nat) : String :=
  if n < 10 then "0" ++ toString n else toString n

/-- `toISOString().split('T')[0]` of an instant with the given UTC
calendar date: `"YYYY-MM-DD"`, month rendered 1-based (years 1000–9999,
where `toISOString`'s four-digit year padding is a no-op). -/
def isoDateString : Int × Nat × Nat → String
  | (y, m, d) => toString y ++ "-" ++ pad2 (m + 1) ++ "-" ++ pad2 d

/-- `LimitFormData` (from `@/composables/Limits/types`, not under the
visible sources): the limit form's value object; the converters read only
`budget`. -/
structure LimitFormData where
  budget : String
deriving Repr, DecidableEq

/-- `convertFormDataToCreateData(formData, categoryId)`: `year`/`month`
are the current local date's `getFullYear()` / `getMonth()` and
`tzOffset` the environment's `getTimezoneOffset()`.  Source:
```
const periodStart = new Date(year, month, 1);
const periodEnd = new Date(year, month + 1, 0);
return { category_id: categoryId, amount: formData.budget,
         period_start: periodStart.toISOString().split('T')[0],
         period_end: periodEnd.toISOString().split('T')[0] };
```
-/
def convertFormDataToCreateData (year : Int) (month : Nat) (tzOffset : Int)
    (formData : LimitFormData) (categoryId : String) : LimitCreateData :=
  { category_id := categoryId
    amount := formData.budget
    period_start :=
      isoDateString (jsLocalMidnightToUTCDate year month 1 tzOffset)
    period_end :=
      isoDateString
        (jsLocalMidnightToUTCDate year month (daysInMonth year month) tzOffset) }

/-- `convertFormDataToUpdateData(formData)` of the limits store: the same
period computation, without the category reference. -/
def convertFormDataToUpdateData (year : Int) (month : Nat) (tzOffset : Int)
    (formData : LimitFormData) : LimitUpdateData :=
  { amount := formData.budget
    period_start :=
      isoDateString (jsLocalMidnightToUTCDate year month 1 tzOffset)
    period_end :=
      isoDateString
        (jsLocalMidnightToUTCDate year month (daysInMonth year month) tzOffset) }

/-- The payload a limit form submission sends to the server. -/
inductive LimitPayload where
  | create (d : LimitCreateData)
  | update (d : LimitUpdateData)
deriving Repr, DecidableEq

/-- The payload side of `handleSubmit(formData, categoryId)`: with an edit
session open (`editingLimit` non-null) it submits the update payload of
`convertFormDataToUpdateData`, otherwise the create payload of
`convertFormDataToCreateData`. -/
def handleSubmitPayload (editingLimit : Option LimitT) (year : Int)
    (month : Nat) (tzOffset : Int) (formData : LimitFormData)
    (categoryId : String) : LimitPayload :=
  match editingLimit with
  | some _ => .update (convertFormDataToUpdateData year month tzOffset formData)
  | none => .create (convertFormDataToCreateData year month tzOffset formData categoryId)

/-- The `period_start` field of a submission payload. -/
def LimitPayload.periodStart : LimitPayload → String
  | .create d => d.period_start
  | .update d => d.period_start

/-- The `period_end` field of a submission payload. -/
def LimitPayload.periodEnd : LimitPayload → String
  | .create d => d.period_end
  | .update d => d.period_end

end LimitsStore

/-! ## The Transactions page (`Transactions.vue` script)

Component-local refs: `selectionMode`, `selectedIds`; the page also writes
the layout store's `hideBottomBar`.  The transactions store itself
(`useTransactionsStore`) is outside the visible sources; its collection
contents after a store call are abstract inputs to the page handlers. -/

namespace TransactionsPage

/-- The `Transaction` entity (from `@/composables/Transactions/types`, not
under the visible sources; fields per the spec's data model).  The page
handlers inspect only `id`. -/
structure TransactionT where
  id : String
  type : String
  amount : String
  currency : String
  category_id : Option String
  description : String
  transaction_date : String
  created_at : String
deriving Repr, DecidableEq

/-- The component-local selection refs plus the layout store's
`hideBottomBar`. -/
structure PageState where
  selectionMode : Bool
  selectedIds : List String
  hideBottomBar : Bool
deriving Repr, DecidableEq

/-- `exitSelectionMode()`: leaves selection mode, clears the selection,
restores the bottom bar. -/
def exitSelectionMode (s : PageState) : PageState :=
  { s with selectionMode := false, selectedIds := [], hideBottomBar := false }

/-- `toggleSelectionMode()`. -/
def toggleSelectionMode (s : PageState) : PageState :=
  if s.selectionMode then exitSelectionMode s
  else { s with selectionMode := true, hideBottomBar := true }

/-- `handleSelect(transaction, selected)`: appends the id on select,
filters it out on deselect. -/
def handleSelect (s : PageState) (t : TransactionT) (selected : Bool) :
    PageState :=
  if selected then { s with selectedIds := s.selectedIds ++ [t.id] }
  else { s with selectedIds := s.selectedIds.filter (fun id => id != t.id) }

/-- `handleMassDelete()`: returns unchanged on an empty selection;
otherwise awaits `removeTransactions(idsToDelete)` (resolved outcome
`removeResult`).  On fulfillment it calls `exitSelectionMode()`, awaits
`refreshTransactions()` (a forced reload of the transactions cache) and
shows a success toast; on rejection the `catch` shows an error toast and
nothing else.  The returned flag records whether `refreshTransactions()`
was invoked. -/
def handleMassDelete (s : PageState) (removeResult : Except String Unit) :
    PageState × Bool :=
  if s.selectedIds.length == 0 then (s, false)
  else
    match removeResult with
    | .ok _ => (exitSelectionMode s, true)
    | .error _ => (s, false)

/-- The page state together with the identifiers currently present in the
loaded, filtered collection of the transactions store. -/
structure TxView where
  page : PageState
  visibleIds : List String
deriving Repr, DecidableEq

/-- `handleApplyFilters(filters)`: awaits `applyFilters(filters)` on the
transactions store, which re-fetches the collection for the new filter
(the resulting collection is the abstract input `newVisibleIds`).  The
handler touches no component-local state: `selectionMode` and
`selectedIds` are not modified. -/
def handleApplyFilters (v : TxView) (newVisibleIds : List String) : TxView :=
  { v with visibleIds := newVisibleIds }

/-- Modelled from the spec: the selection-subset invariant — while
selection mode is active, every selected identifier is present in the
loaded, filtered collection. -/
def selectionSubsetInv (v : TxView) : Bool :=
  !v.page.selectionMode || v.page.selectedIds.all (fun id => v.visibleIds.contains id)

/-- `TransactionFormData` (from `@/composables/Transactions/types`, not
under the visible sources): the edit form's value object; `amount` is a
number, `category_id` an optional string (absent or possibly empty). -/
structure TransactionFormData where
  type : String
  amount : Nat
  currency : String
  description : String
  transaction_date : String
  category_id : Option String
deriving Repr, DecidableEq

/-- `TransactionUpdateData`: the update payload; `category_id = none`
models the field being absent from the payload object. -/
structure TransactionUpdateData where
  type : String
  amount : String
  currency : String
  description : String
  transaction_date : String
  category_id : Option String
deriving Repr, DecidableEq

/-- JS `String.prototype.trim()`: strips leading and trailing whitespace
characters (embedded executably over the string's character list). -/
def jsTrim (s : String) : String :=
  String.mk
    (((s.data.dropWhile Char.isWhitespace).reverse.dropWhile
        Char.isWhitespace).reverse)

/-- `convertFormDataToUpdateData(formData)` of the Transactions page:
builds the base payload (amount serialized with `toString()`), then adds
`category_id` only under
`if (formData.category_id && formData.category_id.trim() !== '')`
— JS truthiness: an absent (`undefined`) or empty-string `category_id`
is falsy and the field is left out of the payload. -/
def convertFormDataToUpdateData (formData : TransactionFormData) :
    TransactionUpdateData :=
  let updateData : TransactionUpdateData :=
    { type := formData.type
      amount := toString formData.amount
      currency := formData.currency
      description := formData.description
      transaction_date := formData.transaction_date
      category_id := none }
  match formData.category_id with
  | none => updateData
  | some cid =>
    if !(cid == "") && !(jsTrim cid == "") then
      { updateData with category_id := some cid }
    else
      updateData

end TransactionsPage

/-! ## Concrete sample values (used to instantiate the theorems) -/

open LimitsStore TransactionsPage

/-- A sample limits filter. -/
def sampleFilter : Filter := [("category_id", "c1")]

/-- A sample `Limit` entity. -/
def sampleLimit : LimitT :=
  { id := "l1", category_id := "c1", amount := "100000"
    period_start := "2024-06-01", period_end := "2024-06-30"
    created_at := "2024-06-01T00:00:00Z" }

/-- An environment whose remote calls all succeed; every fetch returns
`[sampleLimit]`. -/
def sampleEnv : LimitsEnv :=
  { fetchLimits := fun _ => .ok [sampleLimit]
    addLimitRequest := .ok ()
    updateLimitRequest := .ok ()
    removeLimitRequest := .ok () }

/-- An environment whose remote calls all reject with `"network"`. -/
def sampleFailEnv : LimitsEnv :=
  { fetchLimits := fun _ => .error "network"
    addLimitRequest := .error "network"
    updateLimitRequest := .error "network"
    removeLimitRequest := .error "network" }

/-- The store state after a successful load of `sampleFilter`. -/
def sampleLoadedState : LimitsState :=
  { limits := [sampleLimit], loading := false, isLoaded := true
    currentFilter := some sampleFilter }

/-- A store state with a load in flight. -/
def sampleBusyState : LimitsState :=
  { limits := [], loading := true, isLoaded := false, currentFilter := none }

/-- A sample transaction. -/
def sampleTx : TransactionT :=
  { id := "t1", type := "expense", amount := "5000", currency := "UZS"
    category_id := some "c1", description := "coffee"
    transaction_date := "2024-06-01", created_at := "2024-06-01T00:00:00Z" }

/-! ## Claims -/

/-- C1: for every filter `f`, after a `load(f)` that completes
successfully, a second `load(f)` with `force = false` performs no network
fetch and leaves the cache contents, the loaded flag and the recorded
filter unchanged; over the two calls exactly one fetch is issued. -/
theorem load_then_load_single_fetch (env env2 : LimitsEnv) (s : LimitsState)
    (f : Option Filter) (items : List LimitT)
    (hbusy : s.loading = false) (hloaded : s.isLoaded = false)
    (hfetch : env.fetchLimits f = .ok items) :
    loadLimits env s f false =
      ({ s with limits := items, isLoaded := true, loading := false,
                currentFilter := f }, 1, .ok ()) ∧
    loadLimits env2
      { s with limits := items, isLoaded := true, loading := false,
               currentFilter := f } f false =
      ({ s with limits := items, isLoaded := true, loading := false,
                currentFilter := f }, 0, .ok ()) := by
  constructor
  · simp [loadLimits, loadLimitsBegin, loadLimitsEnd, hbusy, hloaded, hfetch]
  · simp [loadLimits, loadLimitsBegin]

/-- Witness for C1 at `sampleEnv`, the initial state and `sampleFilter`. -/
theorem load_then_load_single_fetch_witness :
    loadLimits sampleEnv initLimitsState (some sampleFilter) false =
      ({ initLimitsState with limits := [sampleLimit], isLoaded := true,
                              loading := false,
                              currentFilter := some sampleFilter }, 1, .ok ()) ∧
    loadLimits sampleEnv
      { initLimitsState with limits := [sampleLimit], isLoaded := true,
                             loading := false,
                             currentFilter := some sampleFilter }
      (some sampleFilter) false =
      ({ initLimitsState with limits := [sampleLimit], isLoaded := true,
                              loading := false,
                              currentFilter := some sampleFilter }, 0, .ok ()) :=
  load_then_load_single_fetch sampleEnv sampleEnv initLimitsState
    (some sampleFilter) [sampleLimit] rfl rfl rfl

/-- C2 counterexample: two structurally equal filters that differ only in
field order are refetched, not reused — the gate is order-sensitive.  From
a loaded state whose recorded filter is `a=1, b=2`, requesting the
structurally equal `b=2, a=1` issues a fetch. -/
theorem gate_order_sensitive_counterexample :
    structEqFilter [("a", "1"), ("b", "2")] [("b", "2"), ("a", "1")] = true ∧
    (loadLimits sampleEnv
      { limits := [], loading := false, isLoaded := true,
        currentFilter := some [("a", "1"), ("b", "2")] }
      (some [("b", "2"), ("a", "1")]) false).2.1 = 1 := by
  constructor
  · decide
  · decide

/-- C2 amended: the cache-reuse decision compares the `JSON.stringify`
serializations of the recorded and the requested filter and decides reuse
exactly when they are equal — absent (`undefined`) arguments serialize to
a canonical absent value, but field order is significant, so structurally
equal filters in a different field order are refetched (see the
counterexample). -/
theorem gate_serialization_equality (env : LimitsEnv) (s : LimitsState)
    (params : Option Filter)
    (hbusy : s.loading = false) (hloaded : s.isLoaded = true) :
    (loadLimits env s params false).2.1 = 0 ↔
      serializeOptFilter s.currentFilter = serializeOptFilter params := by
  rcases h : serializeOptFilter s.currentFilter == serializeOptFilter params
    with _ | _
  · have hne : serializeOptFilter s.currentFilter ≠ serializeOptFilter params :=
      beq_eq_false_iff_ne.mp h
    simp [loadLimits, loadLimitsBegin, hbusy, hloaded, h, hne]
  · have heq : serializeOptFilter s.currentFilter = serializeOptFilter params :=
      beq_iff_eq.mp h
    simp [loadLimits, loadLimitsBegin, hbusy, hloaded, h, heq]

/-- Witness for C2's amended theorem at a loaded state and its own
recorded filter. -/
theorem gate_serialization_equality_witness :
    ((loadLimits sampleEnv sampleLoadedState (some sampleFilter) false).2.1 = 0 ↔
      serializeOptFilter sampleLoadedState.currentFilter =
        serializeOptFilter (some sampleFilter)) ∧
    (loadLimits sampleEnv sampleLoadedState (some sampleFilter) false).2.1 = 0 :=
  ⟨gate_serialization_equality sampleEnv sampleLoadedState (some sampleFilter)
      rfl rfl,
    by decide⟩

/-- Helper: a call that reaches `loadLimitsBegin` while the busy flag is
set returns without fetching and without touching the state, whatever the
filter and whatever `force` is. -/
theorem loadLimitsBegin_busy (s : LimitsState) (f : Option Filter)
    (force : Bool) (hbusy : s.loading = true) :
    loadLimitsBegin s f force = (s, false) := by
  unfold loadLimitsBegin
  split_ifs
  all_goals simp_all

/-- Helper: `loadLimitsBegin` either declines (no fetch, state untouched)
or issues a fetch after setting the busy flag and recording the requested
filter. -/
theorem loadLimitsBegin_cases (s : LimitsState) (f : Option Filter)
    (force : Bool) :
    loadLimitsBegin s f force = (s, false) ∨
    loadLimitsBegin s f force =
      ({ s with loading := true, currentFilter := f }, true) := by
  unfold loadLimitsBegin
  dsimp only
  split_ifs
  · exact Or.inl rfl
  · exact Or.inl rfl
  · exact Or.inr rfl

/-- Helper: a `loadLimitsBegin` that issues a fetch leaves the busy flag
set in the state it returns. -/
theorem loadLimitsBegin_fetched_loading (s : LimitsState) (f : Option Filter)
    (force : Bool) (h : (loadLimitsBegin s f force).2 = true) :
    (loadLimitsBegin s f force).1.loading = true := by
  rcases loadLimitsBegin_cases s f force with hc | hc
  all_goals rw [hc] at h ⊢
  all_goals simp_all

/-- C3 counterexample: a user-initiated `loadLimits` whose fetch rejects
still fulfills — the `catch` block logs and swallows the error instead of
rethrowing it, so the caller of an explicit load never observes the
failure. -/
theorem load_error_swallowed_counterexample :
    sampleFailEnv.fetchLimits (some sampleFilter) = .error "network" ∧
    (loadLimits sampleFailEnv initLimitsState (some sampleFilter) false).2.1 = 1 ∧
    (loadLimits sampleFailEnv initLimitsState (some sampleFilter) false).2.2 = .ok () :=
  ⟨rfl, rfl, rfl⟩

/-- C3 amended: `loadLimits` logs and swallows a failed fetch for every
caller — explicit user-initiated loads included, not only background
refreshes; its promise always fulfills.  Only the mutation actions
(`addLimit` / `updateLimit` / `removeLimit`) rethrow their errors to the
caller. -/
theorem load_swallows_mutations_throw (env : LimitsEnv) (s : LimitsState)
    (params : Option Filter) (force : Bool) (e : String)
    (hrem : env.removeLimitRequest = .error e) :
    (loadLimits env s params force).2.2 = .ok () ∧
    (removeLimit env s).2 = .error e := by
  constructor
  · unfold loadLimits
    rcases hb : loadLimitsBegin s params force with ⟨s1, b⟩
    rcases b with _ | _ <;> simp
  · simp [removeLimit, hrem]

/-- Witness for C3's amended theorem at the all-failing environment. -/
theorem load_swallows_mutations_throw_witness :
    (loadLimits sampleFailEnv sampleLoadedState (some sampleFilter) true).2.2 = .ok () ∧
    (removeLimit sampleFailEnv sampleLoadedState).2 = .error "network" :=
  load_swallows_mutations_throw sampleFailEnv sampleLoadedState
    (some sampleFilter) true "network" rfl

/-- C4 counterexample: a `loadLimits` whose fetch fails does not leave the
recorded applied filter at its pre-call value — `currentFilter` is
assigned the requested filter before the fetch is awaited, so after the
failure it names a filter whose contents were never fetched. -/
theorem failed_load_updates_filter_counterexample :
    sampleFailEnv.fetchLimits (some sampleFilter) = .error "network" ∧
    (loadLimits sampleFailEnv
      { limits := [sampleLimit], loading := false, isLoaded := true,
        currentFilter := some [("category_id", "c0")] }
      (some sampleFilter) false).1.currentFilter = some sampleFilter ∧
    some sampleFilter ≠ some [("category_id", "c0")] := by
  refine ⟨rfl, rfl, ?_⟩
  decide

/-- C4 amended: on fetch failure the cache contents and the loaded flag
are unchanged and the busy flag is cleared — but the recorded filter is
the *requested* one (it is assigned before the fetch), not the pre-call
one; the busy flag is cleared on the success and the failure exit alike. -/
theorem failed_load_frame (env : LimitsEnv) (s s1 : LimitsState)
    (params : Option Filter) (force : Bool) (e : String)
    (r : Except String (List LimitT))
    (hfetched : (loadLimitsBegin s params force).2 = true)
    (hfetch : env.fetchLimits params = .error e) :
    loadLimits env s params force =
      ({ s with currentFilter := params, loading := false }, 1, .ok ()) ∧
    (loadLimitsEnd s1 r).loading = false := by
  constructor
  · have hpair : loadLimitsBegin s params force =
        ({ s with loading := true, currentFilter := params }, true) := by
      rcases loadLimitsBegin_cases s params force with hc | hc
      · rw [hc] at hfetched
        simp at hfetched
      · exact hc
    unfold loadLimits
    rw [hpair]
    simp [loadLimitsEnd, hfetch]
  · rcases r with _ | _ <;> simp [loadLimitsEnd]

/-- Witness for C4's amended theorem: a loaded state, a new filter, a
failing fetch. -/
theorem failed_load_frame_witness :
    loadLimits sampleFailEnv sampleLoadedState (some [("category_id", "c0")]) false =
      ({ sampleLoadedState with currentFilter := some [("category_id", "c0")],
                                loading := false }, 1, .ok ()) ∧
    (loadLimitsEnd sampleBusyState (.error "network")).loading = false :=
  failed_load_frame sampleFailEnv sampleLoadedState sampleBusyState
    (some [("category_id", "c0")]) false "network" (.error "network")
    (by decide) rfl

/-- C5: while a load is in flight (busy flag set), every further
`loadLimits` call on the store — user-initiated or scheduler-triggered
(`refreshLimits`), with or without `force` — is a no-op; consequently two
concurrent `loadLimits` calls where the second begins before the first's
fetch resolves issue exactly one network fetch between them. -/
theorem busy_guard_single_fetch (env : LimitsEnv) (s s0 : LimitsState)
    (f f1 f2 : Option Filter) (force force1 force2 : Bool)
    (hbusy : s.loading = true)
    (h1 : (loadLimitsBegin s0 f1 force1).2 = true) :
    loadLimitsBegin s f force = (s, false) ∧
    refreshLimits env s = (s, 0, .ok ()) ∧
    (twoConcurrentLoads env s0 f1 force1 f2 force2).2 = 1 := by
  refine ⟨loadLimitsBegin_busy s f force hbusy, ?_, ?_⟩
  · unfold refreshLimits loadLimits
    rw [loadLimitsBegin_busy s s.currentFilter true hbusy]
    simp
  · have hs1 : (loadLimitsBegin s0 f1 force1).1.loading = true :=
      loadLimitsBegin_fetched_loading s0 f1 force1 h1
    rcases hb : loadLimitsBegin s0 f1 force1 with ⟨s1, b1⟩
    rw [hb] at h1 hs1
    simp only at h1 hs1
    subst h1
    unfold twoConcurrentLoads
    rw [hb]
    simp [loadLimitsBegin_busy s1 f2 force2 hs1]

/-- Witness for C5: a busy state ignores a forced call, and an initial
load followed by a concurrent forced reload issues one fetch in total. -/
theorem busy_guard_single_fetch_witness :
    loadLimitsBegin sampleBusyState (some sampleFilter) true =
      (sampleBusyState, false) ∧
    refreshLimits sampleEnv sampleBusyState = (sampleBusyState, 0, .ok ()) ∧
    (twoConcurrentLoads sampleEnv initLimitsState (some sampleFilter) false
      (some sampleFilter) true).2 = 1 :=
  busy_guard_single_fetch sampleEnv sampleBusyState initLimitsState
    (some sampleFilter) (some sampleFilter) (some sampleFilter)
    true false true rfl (by decide)

/-- C6 counterexample: a bulk delete whose remote call rejects does *not*
exit selection mode, does not empty the selection and does not trigger
the forced refresh — the `catch` block only shows an error toast, so the
unconditional-cleanup claim fails on the failure path. -/
theorem mass_delete_failure_counterexample :
    handleMassDelete
      { selectionMode := true, selectedIds := ["t1", "t2"], hideBottomBar := true }
      (.error "network") =
    ({ selectionMode := true, selectedIds := ["t1", "t2"], hideBottomBar := true },
      false) := by
  decide

/-- C6 amended: on its success path `handleMassDelete` exits selection
mode with an emptied selection and triggers the forced refresh of the
transactions cache; on its failure path (and on an empty selection) it
leaves the selection state unchanged and performs no refresh. -/
theorem mass_delete_paths (s : PageState) (e : String)
    (hne : s.selectedIds.length ≠ 0) :
    handleMassDelete s (.ok ()) =
      ({ s with selectionMode := false, selectedIds := [],
                hideBottomBar := false }, true) ∧
    handleMassDelete s (.error e) = (s, false) := by
  have hz : (s.selectedIds.length == 0) = false := by
    simpa using hne
  constructor
  · simp [handleMassDelete, exitSelectionMode, hz]
  · simp [handleMassDelete, hz]

/-- Witness for C6's amended theorem at a two-element selection. -/
theorem mass_delete_paths_witness :
    handleMassDelete
      { selectionMode := true, selectedIds := ["t1", "t2"], hideBottomBar := true }
      (.ok ()) =
      ({ selectionMode := false, selectedIds := [], hideBottomBar := false },
        true) ∧
    handleMassDelete
      { selectionMode := true, selectedIds := ["t1", "t2"], hideBottomBar := true }
      (.error "network") =
      ({ selectionMode := true, selectedIds := ["t1", "t2"],
         hideBottomBar := true }, false) :=
  mass_delete_paths
    { selectionMode := true, selectedIds := ["t1", "t2"], hideBottomBar := true }
    "network" (by decide)

/-- C7 counterexample: a reachable violation of the selection-subset
invariant.  From the initial page state, enter selection mode, select the
visible transaction `t1`, then apply a filter under which the collection
becomes `["t2"]`: selection mode is still active, yet the stale `t1`
remains selected and is no longer in the collection. -/
theorem selection_subset_violated_counterexample :
    selectionSubsetInv
      { page := handleSelect
          (toggleSelectionMode
            { selectionMode := false, selectedIds := [], hideBottomBar := false })
          sampleTx true
        visibleIds := ["t1", "t2"] } = true ∧
    selectionSubsetInv
      (handleApplyFilters
        { page := handleSelect
            (toggleSelectionMode
              { selectionMode := false, selectedIds := [], hideBottomBar := false })
            sampleTx true
          visibleIds := ["t1", "t2"] }
        ["t2"]) = false := by
  decide

/-- C7 amended: applying a new filter while selection mode is active
leaves the selection set (and selection mode) untouched — stale selected
identifiers survive a filter change, so the subset invariant is not
maintained there; the selection set is emptied only by
`exitSelectionMode` (exit, toggle-off, or a successful mass delete). -/
theorem apply_filters_keeps_selection (v : TxView) (ids : List String)
    (p : PageState) :
    (handleApplyFilters v ids).page = v.page ∧
    (handleApplyFilters v ids).visibleIds = ids ∧
    (exitSelectionMode p).selectedIds = [] ∧
    (exitSelectionMode p).selectionMode = false := by
  exact ⟨rfl, rfl, rfl, rfl⟩

/-- C8: the limit converters evaluated at the failing input — current
local date in June 2024 (`getFullYear() = 2024`, `getMonth() = 5`) in a
UTC+5 environment (`getTimezoneOffset() = -300`, e.g. Asia/Tashkent).
`new Date(year, month, 1)` denotes *local* midnight, but
`toISOString()` formats its *UTC* date, one calendar day earlier east of
Greenwich: the payload carries the last day of the *previous* month as
`period_start` and the next-to-last day of the current month as
`period_end`, instead of the claimed first and last day.  At
`getTimezoneOffset() = 0` the code produces the intended dates, showing
the discrepancy is a timezone slip rather than the intended period. -/
theorem limit_period_timezone_shift :
    (handleSubmitPayload none 2024 5 (-300) ⟨"100000"⟩ "c1").periodStart =
      "2024-05-31" ∧
    (handleSubmitPayload none 2024 5 (-300) ⟨"100000"⟩ "c1").periodEnd =
      "2024-06-29" ∧
    (handleSubmitPayload (some sampleLimit) 2024 5 (-300) ⟨"100000"⟩ "c1").periodStart =
      "2024-05-31" ∧
    (handleSubmitPayload (some sampleLimit) 2024 5 (-300) ⟨"100000"⟩ "c1").periodEnd =
      "2024-06-29" ∧
    (handleSubmitPayload none 2024 5 0 ⟨"100000"⟩ "c1").periodStart =
      "2024-06-01" ∧
    (handleSubmitPayload none 2024 5 0 ⟨"100000"⟩ "c1").periodEnd =
      "2024-06-30" := by
  exact ⟨rfl, rfl, rfl, rfl, rfl, rfl⟩

/-- C9: after a successful create, update or delete mutation on the
limits collection, the store re-fetches with the currently recorded
filter and replaces the contents with that response before returning; in
particular, when the server's response no longer contains a deleted id,
a subsequent read of the cache does not contain it either. -/
theorem mutation_refetches_current_filter (env : LimitsEnv)
    (s : LimitsState) (items : List LimitT) (delId : String)
    (hfetch : env.fetchLimits s.currentFilter = .ok items)
    (hadd : env.addLimitRequest = .ok ())
    (hupd : env.updateLimitRequest = .ok ())
    (hrem : env.removeLimitRequest = .ok ())
    (habsent : delId ∉ items.map (fun l => l.id)) :
    addLimit env s = ({ s with limits := items, loading := false }, .ok ()) ∧
    updateLimit env s = ({ s with limits := items, loading := false }, .ok ()) ∧
    removeLimit env s = ({ s with limits := items, loading := false }, .ok ()) ∧
    delId ∉ (removeLimit env s).1.limits.map (fun l => l.id) := by
  refine ⟨?_, ?_, ?_, ?_⟩
  · simp [addLimit, hadd, hfetch]
  · simp [updateLimit, hupd, hfetch]
  · simp [removeLimit, hrem, hfetch]
  · simp [removeLimit, hrem, hfetch]
    simpa using habsent

/-- Witness for C9: the server's post-delete response omits `l2`, and the
cache read after `removeLimit` omits it too. -/
theorem mutation_refetches_current_filter_witness :
    addLimit sampleEnv sampleLoadedState =
      ({ sampleLoadedState with limits := [sampleLimit], loading := false },
        .ok ()) ∧
    updateLimit sampleEnv sampleLoadedState =
      ({ sampleLoadedState with limits := [sampleLimit], loading := false },
        .ok ()) ∧
    removeLimit sampleEnv sampleLoadedState =
      ({ sampleLoadedState with limits := [sampleLimit], loading := false },
        .ok ()) ∧
    "l2" ∉ (removeLimit sampleEnv sampleLoadedState).1.limits.map (fun l => l.id) :=
  mutation_refetches_current_filter sampleEnv sampleLoadedState [sampleLimit]
    "l2" rfl rfl rfl rfl (by decide)

/-- C10: in the transaction update payload built by
`convertFormDataToUpdateData`, the `category_id` field is present exactly
when the form's `category_id` is non-empty after trimming whitespace
(an absent form value counting as empty); when present it carries the
form's value unchanged, and otherwise the field is omitted from the
payload altogether. -/
theorem update_payload_category_omission
    (fd : TransactionFormData) :
    ((TransactionsPage.convertFormDataToUpdateData fd).category_id ≠ none ↔
      jsTrim (fd.category_id.getD "") ≠ "") ∧
    ((TransactionsPage.convertFormDataToUpdateData fd).category_id = none ∨
      (TransactionsPage.convertFormDataToUpdateData fd).category_id =
        fd.category_id) := by
  rcases hcid : fd.category_id with _ | cid
  · constructor
    · simp [TransactionsPage.convertFormDataToUpdateData, hcid]
      decide
    · left
      simp [TransactionsPage.convertFormDataToUpdateData, hcid]
  · by_cases htrim : jsTrim cid = ""
    · have hcond : (!(cid == "") && !(jsTrim cid == "")) = false := by
        simp [htrim]
      constructor
      · simp [TransactionsPage.convertFormDataToUpdateData, hcid, hcond, htrim]
      · left
        simp [TransactionsPage.convertFormDataToUpdateData, hcid, hcond]
    · have hne : cid ≠ "" := by
        intro hc
        subst hc
        exact htrim rfl
      have hcond : (!(cid == "") && !(jsTrim cid == "")) = true := by
        simp [htrim, hne]
      constructor
      · simp [TransactionsPage.convertFormDataToUpdateData, hcid, hcond, htrim]
      · right
        simp [TransactionsPage.convertFormDataToUpdateData, hcid, hcond]

end FinanceTracker
